import Mathlib

/-!
Verification of the DecorativeUI developer task runner (`tasks.py`).

The script is embedded shallowly: a `World` carries the process-wide state
the script can observe or mutate — the current working directory, the set of
existing directories, and an oracle giving each shell command's exit code and
captured output streams — plus a trace of the commands actually executed.
Each task function returns the new world, the list of printed lines, and its
boolean success result. Fallible external commands are modelled by the
oracle; the Python `try/except subprocess.CalledProcessError` around
`subprocess.run(..., check=True)` becomes the branch on the exit code, so
`run_command` is total and always returns a boolean, exactly as the source
never lets the error escape.
-/

namespace Tasks

/-- Result of running one external command: exit code and captured streams. -/
structure ProcResult where
  exitCode : Nat
  stdout : String
  stderr : String
deriving DecidableEq

/-- Process-wide state visible to `tasks.py`: the current working directory
(as a path, a list of components), the set of existing directories (absolute
paths), the oracle mapping a shell command string to its outcome, and the
trace of commands executed so far. -/
structure World where
  cwd : List String
  dirs : List (List String)
  exec : String → ProcResult
  trace : List String

/-- The progress line `print(f"🔧 {description}...")`. -/
def progressLine (description : String) : String :=
  "🔧 " ++ description ++ "..."

/-- The error summary `print(f"❌ Error: {e}")`, where `str(e)` for a
`CalledProcessError` with a non-negative exit code is
`Command 'cmd' returned non-zero exit status N.`. -/
def errorLine (cmd : String) (code : Nat) : String :=
  "❌ Error: Command \x27" ++ cmd ++ "\x27 returned non-zero exit status " ++
    toString code ++ "."

/-- `run_command` of tasks.py lines 10-26: print the progress line, run the
command; on exit code 0 print captured stdout when non-empty and return
`true`; otherwise print the error summary, then stdout and stderr each when
non-empty, and return `false`. -/
def run_command (cmd description : String) (w : World) :
    World × List String × Bool :=
  let r := w.exec cmd
  let w1 : World := { w with trace := w.trace ++ [cmd] }
  if r.exitCode = 0 then
    (w1, progressLine description ::
      (if r.stdout = "" then [] else [r.stdout]), true)
  else
    (w1, progressLine description :: errorLine cmd r.exitCode ::
      ((if r.stdout = "" then [] else ["Output: " ++ r.stdout]) ++
       (if r.stderr = "" then [] else ["Error: " ++ r.stderr])), false)

/-- The banner printed first by `setup_dev`. -/
def setupBanner : String :=
  "🚀 Setting up DeclarativeUI development environment..."

/-- The lines printed by `setup_dev` after both steps succeed. -/
def setupNextSteps : List String :=
  ["✅ Development environment setup complete!",
   "\n📋 Next steps:",
   "   1. mkdir build && cd build",
   "   2. cmake .. -DCMAKE_BUILD_TYPE=Debug -DBUILD_EXAMPLES=ON -DBUILD_TESTS=ON",
   "   3. cmake --build .",
   "   4. ctest --output-on-failure"]

/-- `setup_dev` of tasks.py lines 29-51: install dependencies, then install
the pre-commit hooks, returning `False` as soon as a step fails. -/
def setup_dev (w : World) : World × List String × Bool :=
  let s1 := run_command "pip install -r requirements.txt"
    "Installing Python dependencies" w
  if s1.2.2 = false then (s1.1, setupBanner :: s1.2.1, false)
  else
    let s2 := run_command "pre-commit install" "Installing pre-commit hooks" s1.1
    if s2.2.2 = false then (s2.1, setupBanner :: (s1.2.1 ++ s2.2.1), false)
    else (s2.1, (setupBanner :: (s1.2.1 ++ s2.2.1)) ++ setupNextSteps, true)

/-- `format_code` of tasks.py lines 54-56. -/
def format_code (w : World) : World × List String × Bool :=
  run_command "pre-commit run --all-files" "Formatting all code" w

/-- `lint_code` of tasks.py lines 59-61. -/
def lint_code (w : World) : World × List String × Bool :=
  run_command "pre-commit run cppcheck --all-files" "Running C++ linting" w

/-- `check_code` of tasks.py lines 64-66. -/
def check_code (w : World) : World × List String × Bool :=
  run_command "pre-commit run --all-files" "Running all code quality checks" w

/-- The path of the `build` directory relative to the current directory. -/
def buildPath (w : World) : List String := w.cwd ++ ["build"]

/-- `os.makedirs("build", exist_ok=True)`: create the directory if absent. -/
def makedirsBuild (w : World) : World :=
  if buildPath w ∈ w.dirs then w
  else { w with dirs := w.dirs ++ [buildPath w] }

/-- `os.chdir("build")`: descend into the build directory. -/
def chdirBuild (w : World) : World := { w with cwd := w.cwd ++ ["build"] }

/-- `build_debug` of tasks.py lines 69-80: make the build directory, change
into it, configure; on configure failure return `False` without building,
otherwise return the build step's result. -/
def build_debug (w : World) : World × List String × Bool :=
  let w0 := chdirBuild (makedirsBuild w)
  let s1 := run_command
    "cmake .. -DCMAKE_BUILD_TYPE=Debug -DBUILD_EXAMPLES=ON -DBUILD_TESTS=ON"
    "Configuring CMake" w0
  if s1.2.2 = false then (s1.1, s1.2.1, false)
  else
    let s2 := run_command "cmake --build ." "Building project" s1.1
    (s2.1, s1.2.1 ++ s2.2.1, s2.2.2)

/-- `build_release` of tasks.py lines 83-94: as `build_debug` with the
Release configuration. -/
def build_release (w : World) : World × List String × Bool :=
  let w0 := chdirBuild (makedirsBuild w)
  let s1 := run_command
    "cmake .. -DCMAKE_BUILD_TYPE=Release -DBUILD_EXAMPLES=ON -DBUILD_TESTS=ON"
    "Configuring CMake" w0
  if s1.2.2 = false then (s1.1, s1.2.1, false)
  else
    let s2 := run_command "cmake --build ." "Building project" s1.1
    (s2.1, s1.2.1 ++ s2.2.1, s2.2.2)

/-- The guidance line printed by `run_tests` when the build directory is
missing. -/
def noBuildDirLine : String :=
  "❌ Build directory not found. Run \x27python tasks.py build-debug\x27 first."

/-- `run_tests` of tasks.py lines 97-104: if no build directory exists,
print guidance and return `False`; otherwise change into it and run ctest. -/
def run_tests (w : World) : World × List String × Bool :=
  if buildPath w ∈ w.dirs then
    run_command "ctest --output-on-failure" "Running tests" (chdirBuild w)
  else
    (w, [noBuildDirLine], false)

/-- `clean` of tasks.py lines 107-114: remove the build directory tree when
present (`shutil.rmtree` removes the directory and everything below it);
return `True` either way. -/
def clean (w : World) : World × List String × Bool :=
  if buildPath w ∈ w.dirs then
    ({ w with dirs := w.dirs.filter (fun d => !(List.isPrefixOf (buildPath w) d)) },
     ["🧹 Cleaned build directory"], true)
  else (w, [], true)

/-- `update_hooks` of tasks.py lines 117-119. -/
def update_hooks (w : World) : World × List String × Bool :=
  run_command "pre-commit autoupdate" "Updating pre-commit hooks" w

/-- The static help listing printed by `help` (tasks.py lines 122-134). -/
def helpLines : List String :=
  ["📋 Available tasks:",
   "   setup-dev     - Set up development environment",
   "   format        - Format all code",
   "   lint          - Run C++ linting",
   "   check         - Run all code quality checks",
   "   build-debug   - Build project in debug mode",
   "   build-release - Build project in release mode",
   "   test          - Run all tests",
   "   clean         - Clean build artifacts",
   "   update-hooks  - Update pre-commit hooks",
   "   help          - Show this help"]

/-- `help` of tasks.py lines 122-134: print the listing; it returns no
boolean (Python returns `None`). -/
def help (w : World) : World × List String := (w, helpLines)

/-- The ten keys of the `tasks` dictionary (tasks.py lines 144-155). -/
def taskNames : List String :=
  ["setup-dev", "format", "lint", "check", "build-debug",
   "build-release", "test", "clean", "update-hooks", "help"]

/-- Dictionary lookup plus call, `tasks[task]()` with the boolean result
discarded: `none` when the name is not a key. -/
def runTask (task : String) (w : World) : Option (World × List String) :=
  if task = "setup-dev" then some ((setup_dev w).1, (setup_dev w).2.1)
  else if task = "format" then some ((format_code w).1, (format_code w).2.1)
  else if task = "lint" then some ((lint_code w).1, (lint_code w).2.1)
  else if task = "check" then some ((check_code w).1, (check_code w).2.1)
  else if task = "build-debug" then some ((build_debug w).1, (build_debug w).2.1)
  else if task = "build-release" then
    some ((build_release w).1, (build_release w).2.1)
  else if task = "test" then some ((run_tests w).1, (run_tests w).2.1)
  else if task = "clean" then some ((clean w).1, (clean w).2.1)
  else if task = "update-hooks" then
    some ((update_hooks w).1, (update_hooks w).2.1)
  else if task = "help" then some (help w)
  else none

/-- `main` of tasks.py lines 137-162, with the process exit status as the
last component: the script never calls `sys.exit`, so every path exits 0.
With other than exactly two argv entries it prints the help listing; with an
unknown task name it prints the unknown-task line then the help listing;
otherwise it runs the task and discards its result. -/
def main (argv : List String) (w : World) : World × List String × Nat :=
  match argv with
  | [_, task] =>
    match runTask task w with
    | some p => (p.1, p.2, 0)
    | none => (w, ("❌ Unknown task: " ++ task) :: helpLines, 0)
  | _ => (w, helpLines, 0)

/-- The CMake configure command as a function of the build type. Spec-side
definition used to state that `build_debug` and `build_release` differ only
in the build type they pass. -/
def cfgCmd (ty : String) : String :=
  "cmake .. -DCMAKE_BUILD_TYPE=" ++ ty ++ " -DBUILD_EXAMPLES=ON -DBUILD_TESTS=ON"

/-- Spec-side generic build action, parametric in the build type; the claim
that the two build actions differ only in Debug versus Release is stated as
each being `buildWithType` at its type. -/
def buildWithType (ty : String) (w : World) : World × List String × Bool :=
  let w0 := chdirBuild (makedirsBuild w)
  let s1 := run_command (cfgCmd ty) "Configuring CMake" w0
  if s1.2.2 = false then (s1.1, s1.2.1, false)
  else
    let s2 := run_command "cmake --build ." "Building project" s1.1
    (s2.1, s1.2.1 ++ s2.2.1, s2.2.2)

/-! ### Concrete worlds used by the witnesses -/

/-- A world where every command succeeds with empty output. -/
def okWorld : World := ⟨[], [], fun _ => ⟨0, "", ""⟩, []⟩

/-- A world where every command succeeds printing `OK`. -/
def okOutWorld : World := ⟨[], [], fun _ => ⟨0, "OK", ""⟩, []⟩

/-- A world where every command fails with exit code 2 and some output. -/
def failWorld : World := ⟨[], [], fun _ => ⟨2, "out", "err"⟩, []⟩

/-- A world where only the pip install step fails. -/
def pipFailWorld : World :=
  ⟨[], [], fun c =>
    if c = "pip install -r requirements.txt" then ⟨1, "", ""⟩ else ⟨0, "", ""⟩, []⟩

/-- A world whose build directory already exists. -/
def builtWorld : World := ⟨[], [["build"]], fun _ => ⟨0, "", ""⟩, []⟩

/-! ### Basic lemmas about `run_command` -/

/-- Running a command only appends it to the trace; directory state is
untouched. -/
lemma run_command_world (cmd d : String) (w : World) :
    (run_command cmd d w).1 = { w with trace := w.trace ++ [cmd] } := by
  by_cases h : (w.exec cmd).exitCode = 0 <;> simp [run_command, h]

/-- The boolean result is success exactly of the exit code. -/
lemma run_command_result (cmd d : String) (w : World) :
    (run_command cmd d w).2.2 = decide ((w.exec cmd).exitCode = 0) := by
  by_cases h : (w.exec cmd).exitCode = 0 <;> simp [run_command, h]

/-- The progress line always ends in dots, so it is never the bare text
`OK`. -/
lemma progressLine_ne_OK (d : String) : progressLine d ≠ "OK" := by
  intro h
  have h1 : (progressLine d).length = ("OK" : String).length :=
    congrArg String.length h
  rw [progressLine, String.length_append, String.length_append] at h1
  have e1 : ("🔧 " : String).length = 2 := rfl
  have e2 : ("..." : String).length = 3 := rfl
  have e3 : ("OK" : String).length = 2 := rfl
  omega

/-! ### Claim theorems -/

/-- C1: when the command exits non-zero, `run_command` returns `false` and
prints exactly the progress line, the error summary, then the captured
stdout when and only when non-empty, then the captured stderr when and only
when non-empty. `run_command` is a total function into
`World × List String × Bool`, so the failure is never propagated as a
raised fault: the caller always receives the boolean. -/
theorem run_command_failure_spec (cmd d : String) (w : World)
    (h : (w.exec cmd).exitCode ≠ 0) :
    (run_command cmd d w).2.2 = false ∧
    (run_command cmd d w).2.1 =
      progressLine d :: errorLine cmd (w.exec cmd).exitCode ::
        ((if (w.exec cmd).stdout = "" then []
          else ["Output: " ++ (w.exec cmd).stdout]) ++
         (if (w.exec cmd).stderr = "" then []
          else ["Error: " ++ (w.exec cmd).stderr])) := by
  simp [run_command, h]

/-- C1 witness: a concrete failing command, with both streams non-empty. -/
theorem run_command_failure_spec_witness :
    (run_command "c" "d" failWorld).2.2 = false ∧
    (run_command "c" "d" failWorld).2.1 =
      [progressLine "d", errorLine "c" 2, "Output: out", "Error: err"] := by
  have h := run_command_failure_spec "c" "d" failWorld (by decide)
  exact ⟨h.1, by rw [h.2]; rfl⟩

/-- C2: when the command exits zero, `run_command` returns `true` and prints
the progress line built from the description first, then the captured stdout
exactly when it is non-empty and nothing more; in particular a captured
stdout of `OK` appears exactly once in the printed output. -/
theorem run_command_success_spec (cmd d : String) (w : World)
    (h : (w.exec cmd).exitCode = 0) :
    (run_command cmd d w).2.2 = true ∧
    (run_command cmd d w).2.1 =
      progressLine d ::
        (if (w.exec cmd).stdout = "" then [] else [(w.exec cmd).stdout]) ∧
    ((w.exec cmd).stdout = "OK" →
      ((run_command cmd d w).2.1).count "OK" = 1) := by
  refine ⟨by simp [run_command, h], by simp [run_command, h], ?_⟩
  intro hOK
  simp [run_command, h, hOK, List.count_cons, progressLine_ne_OK d]

/-- C2 witness: a concrete succeeding command whose stdout is `OK`. -/
theorem run_command_success_spec_witness :
    (run_command "c" "d" okOutWorld).2.2 = true ∧
    (run_command "c" "d" okOutWorld).2.1 = [progressLine "d", "OK"] ∧
    ((run_command "c" "d" okOutWorld).2.1).count "OK" = 1 := by
  have h := run_command_success_spec "c" "d" okOutWorld (by decide)
  exact ⟨h.1, by rw [h.2.1]; rfl, h.2.2 (by decide)⟩

/-- C3: with other than exactly two argv entries (program name plus one
argument), `main` prints exactly the help listing and touches nothing; with
a single argument that is not a registered task name, it prints the
unknown-task line naming the argument followed by the help listing. Both
paths return normally (`main` is total, no fault is raised). -/
theorem main_help_on_bad_invocation :
    (∀ (argv : List String) (w : World), argv.length ≠ 2 →
      main argv w = (w, helpLines, 0)) ∧
    (∀ (t : String) (w : World), t ∉ taskNames →
      main ["tasks.py", t] w =
        (w, ("❌ Unknown task: " ++ t) :: helpLines, 0)) := by
  constructor
  · intro argv w h
    match argv with
    | [] => rfl
    | [a] => rfl
    | [a, b] => simp at h
    | a :: b :: c :: r => rfl
  · intro t w h
    simp [taskNames] at h
    obtain ⟨h1, h2, h3, h4, h5, h6, h7, h8, h9, h10⟩ := h
    simp [main, runTask, h1, h2, h3, h4, h5, h6, h7, h8, h9, h10]

/-- C3 witness: no argument, and the unknown name `bogus`. -/
theorem main_help_on_bad_invocation_witness :
    main ["tasks.py"] okWorld = (okWorld, helpLines, 0) ∧
    main ["tasks.py", "bogus"] okWorld =
      (okWorld, ("❌ Unknown task: " ++ "bogus") :: helpLines, 0) :=
  ⟨main_help_on_bad_invocation.1 ["tasks.py"] okWorld (by decide),
   main_help_on_bad_invocation.2 "bogus" okWorld (by decide)⟩

/-- C4: for every registered task name, `main` runs the task and discards
its boolean result: the world and the printed output are the task's, and the
exit status component is 0 whatever the task returned. -/
theorem main_discards_action_result (t : String) (w : World)
    (h : t ∈ taskNames) :
    (main ["tasks.py", t] w).2.2 = 0 ∧
    ∃ p, runTask t w = some p ∧ main ["tasks.py", t] w = (p.1, p.2, 0) := by
  have hr : ∃ p, runTask t w = some p := by
    simp [taskNames] at h
    rcases h with rfl | rfl | rfl | rfl | rfl | rfl | rfl | rfl | rfl | rfl <;>
      exact ⟨_, rfl⟩
  obtain ⟨p, hp⟩ := hr
  have hm : main ["tasks.py", t] w = (p.1, p.2, 0) := by
    simp [main, hp]
  exact ⟨by rw [hm], p, hp, hm⟩

/-- C4 witness: the `test` task at a world with no build directory, where
the action returns `false`, yet the exit status is 0. -/
theorem main_discards_action_result_witness :
    (main ["tasks.py", "test"] okWorld).2.2 = 0 ∧
    (run_tests okWorld).2.2 = false ∧
    (main ["tasks.py", "test"] okWorld).2.1 = [noBuildDirLine] := by
  have h := main_discards_action_result "test" okWorld (by decide)
  obtain ⟨h0, p, hp, hm⟩ := h
  refine ⟨h0, by rfl, ?_⟩
  rw [hm]
  have hpeq : some p = some ((run_tests okWorld).1, (run_tests okWorld).2.1) := by
    rw [← hp]
    exact rfl
  have hp2 : p = ((run_tests okWorld).1, (run_tests okWorld).2.1) :=
    Option.some.inj hpeq
  rw [hp2]
  exact rfl

/-- Running a command leaves the working directory where it was. -/
lemma run_command_cwd (cmd d : String) (w : World) :
    (run_command cmd d w).1.cwd = w.cwd := by
  rw [run_command_world]

/-- `cfgCmd` at `Debug` is the literal configure command of `build_debug`. -/
lemma cfgCmd_debug :
    cfgCmd "Debug" =
      "cmake .. -DCMAKE_BUILD_TYPE=Debug -DBUILD_EXAMPLES=ON -DBUILD_TESTS=ON" := rfl

/-- `cfgCmd` at `Release` is the literal configure command of
`build_release`. -/
lemma cfgCmd_release :
    cfgCmd "Release" =
      "cmake .. -DCMAKE_BUILD_TYPE=Release -DBUILD_EXAMPLES=ON -DBUILD_TESTS=ON" := rfl

/-- `build_debug` is the generic build action at type `Debug`. -/
lemma build_debug_eq (w : World) : build_debug w = buildWithType "Debug" w := by
  unfold build_debug buildWithType
  rw [cfgCmd_debug]

/-- `build_release` is the generic build action at type `Release`. -/
lemma build_release_eq (w : World) :
    build_release w = buildWithType "Release" w := by
  unfold build_release buildWithType
  rw [cfgCmd_release]

/-- Behaviour of the generic build action: it ensures the build directory
exists, descends into it, and runs the build step only when configure
succeeded. -/
lemma buildWithType_spec (ty : String) (w : World) :
    buildPath w ∈ (buildWithType ty w).1.dirs ∧
    (buildWithType ty w).1.cwd = w.cwd ++ ["build"] ∧
    ((w.exec (cfgCmd ty)).exitCode ≠ 0 →
      (buildWithType ty w).2.2 = false ∧
      (buildWithType ty w).1.trace = w.trace ++ [cfgCmd ty]) ∧
    ((w.exec (cfgCmd ty)).exitCode = 0 →
      (buildWithType ty w).1.trace =
        w.trace ++ [cfgCmd ty, "cmake --build ."] ∧
      ((buildWithType ty w).2.2 = true ↔
        (w.exec "cmake --build .").exitCode = 0)) := by
  by_cases hb : buildPath w ∈ w.dirs <;>
    by_cases h1 : (w.exec (cfgCmd ty)).exitCode = 0 <;>
      by_cases h2 : (w.exec "cmake --build .").exitCode = 0 <;>
        simp [buildWithType, run_command, makedirsBuild, chdirBuild, hb, h1, h2]

/-- Every list is a Boolean prefix of itself. -/
lemma isPrefixOf_self (l : List String) : List.isPrefixOf l l = true := by
  induction l with
  | nil => rfl
  | cons a t ih => simp [List.isPrefixOf, ih]

/-- C5: `setup_dev` runs the dependency install first; if it fails, the hook
install command is never executed (the trace grows by the pip command only)
and the result is `false`; if it succeeds, both commands run in order, a
hook-install failure still yields `false`, and the result is `true` exactly
when both steps succeed. -/
theorem setup_dev_short_circuit (w : World) :
    ((w.exec "pip install -r requirements.txt").exitCode ≠ 0 →
      (setup_dev w).2.2 = false ∧
      (setup_dev w).1.trace = w.trace ++ ["pip install -r requirements.txt"]) ∧
    ((w.exec "pip install -r requirements.txt").exitCode = 0 →
      (setup_dev w).1.trace =
        w.trace ++ ["pip install -r requirements.txt", "pre-commit install"] ∧
      ((w.exec "pre-commit install").exitCode ≠ 0 →
        (setup_dev w).2.2 = false)) ∧
    ((setup_dev w).2.2 = true ↔
      (w.exec "pip install -r requirements.txt").exitCode = 0 ∧
      (w.exec "pre-commit install").exitCode = 0) := by
  by_cases h1 : (w.exec "pip install -r requirements.txt").exitCode = 0 <;>
    by_cases h2 : (w.exec "pre-commit install").exitCode = 0 <;>
      simp [setup_dev, run_command, h1, h2]

/-- C5 witness: a world whose pip step fails: the hook command is not in the
trace and `setup_dev` reports failure. -/
theorem setup_dev_short_circuit_witness :
    (setup_dev pipFailWorld).2.2 = false ∧
    (setup_dev pipFailWorld).1.trace = ["pip install -r requirements.txt"] := by
  have h := (setup_dev_short_circuit pipFailWorld).1 (by decide)
  exact ⟨h.1, by rw [h.2]; rfl⟩

/-- C10: `format_code` and `check_code` both are precisely one call of
`run_command` with the same command string `pre-commit run --all-files`,
both return that call's boolean result and leave the same world, and their
printed output differs only in the leading progress line, which carries the
respective description. -/
theorem format_check_extensionally_equal (w : World) :
    format_code w =
      run_command "pre-commit run --all-files" "Formatting all code" w ∧
    check_code w =
      run_command "pre-commit run --all-files" "Running all code quality checks" w ∧
    (format_code w).1 = (check_code w).1 ∧
    (format_code w).2.2 = (check_code w).2.2 ∧
    ((format_code w).2.1).tail = ((check_code w).2.1).tail ∧
    ((format_code w).2.1).head? = some (progressLine "Formatting all code") ∧
    ((check_code w).2.1).head? =
      some (progressLine "Running all code quality checks") := by
  refine ⟨rfl, rfl, ?_, ?_, ?_, ?_, ?_⟩ <;>
    by_cases h : (w.exec "pre-commit run --all-files").exitCode = 0 <;>
      simp [format_code, check_code, run_command, h]

/-- C6: both build actions first ensure the build directory exists, change
into it, and configure; a failed configure yields `false` with the build
command never executed, and a successful configure makes the action return
the build step's result; `build_debug` and `build_release` are each the
generic `buildWithType` action instantiated at `Debug` respectively
`Release`, so they differ only in the build type passed to configure. -/
theorem build_actions_spec (w : World) :
    build_debug w = buildWithType "Debug" w ∧
    build_release w = buildWithType "Release" w ∧
    buildPath w ∈ (build_debug w).1.dirs ∧
    (build_debug w).1.cwd = w.cwd ++ ["build"] ∧
    ((w.exec (cfgCmd "Debug")).exitCode ≠ 0 →
      (build_debug w).2.2 = false ∧
      (build_debug w).1.trace = w.trace ++ [cfgCmd "Debug"]) ∧
    ((w.exec (cfgCmd "Debug")).exitCode = 0 →
      (build_debug w).1.trace =
        w.trace ++ [cfgCmd "Debug", "cmake --build ."] ∧
      ((build_debug w).2.2 = true ↔
        (w.exec "cmake --build .").exitCode = 0)) ∧
    ((w.exec (cfgCmd "Release")).exitCode ≠ 0 →
      (build_release w).2.2 = false ∧
      (build_release w).1.trace = w.trace ++ [cfgCmd "Release"]) ∧
    ((w.exec (cfgCmd "Release")).exitCode = 0 →
      (build_release w).1.trace =
        w.trace ++ [cfgCmd "Release", "cmake --build ."] ∧
      ((build_release w).2.2 = true ↔
        (w.exec "cmake --build .").exitCode = 0)) := by
  have hd := buildWithType_spec "Debug" w
  have hr := buildWithType_spec "Release" w
  refine ⟨build_debug_eq w, build_release_eq w, ?_, ?_, ?_, ?_, ?_, ?_⟩ <;>
    simp only [build_debug_eq, build_release_eq]
  · exact hd.1
  · exact hd.2.1
  · exact hd.2.2.1
  · exact hd.2.2.2
  · exact hr.2.2.1
  · exact hr.2.2.2

/-- C6 witness: a world where every command fails: `build_debug` reports
failure after configure alone ran. -/
theorem build_actions_spec_witness :
    (build_debug failWorld).2.2 = false ∧
    (build_debug failWorld).1.trace = [cfgCmd "Debug"] := by
  have h := (build_actions_spec failWorld).2.2.2.2.1 (by decide)
  exact ⟨h.1, by rw [h.2]; rfl⟩

/-- C7: `run_tests` with no build directory prints the guidance line and
returns `false` with the whole world — in particular the working directory
and the command trace — unchanged; with a build directory present it
descends into it, runs exactly the ctest command, and returns its
success. -/
theorem run_tests_spec (w : World) :
    (buildPath w ∉ w.dirs →
      run_tests w = (w, [noBuildDirLine], false)) ∧
    (buildPath w ∈ w.dirs →
      (run_tests w).1.cwd = w.cwd ++ ["build"] ∧
      (run_tests w).1.dirs = w.dirs ∧
      (run_tests w).1.trace = w.trace ++ ["ctest --output-on-failure"] ∧
      ((run_tests w).2.2 = true ↔
        (w.exec "ctest --output-on-failure").exitCode = 0)) := by
  by_cases hb : buildPath w ∈ w.dirs <;>
    by_cases h : (w.exec "ctest --output-on-failure").exitCode = 0 <;>
      simp [run_tests, run_command, chdirBuild, hb, h]

/-- C7 witness: no build directory at `okWorld`; a build directory at
`builtWorld` where ctest succeeds. -/
theorem run_tests_spec_witness :
    run_tests okWorld = (okWorld, [noBuildDirLine], false) ∧
    (run_tests builtWorld).1.cwd = ["build"] ∧
    (run_tests builtWorld).2.2 = true := by
  have h1 := (run_tests_spec okWorld).1 (by decide)
  have h2 := (run_tests_spec builtWorld).2 (by decide)
  exact ⟨h1, h2.1, h2.2.2.2.mpr (by decide)⟩

/-- C8: `clean` with no build directory returns `true` having changed
nothing and printed nothing; with a build directory it returns `true`, the
working directory and trace are untouched, the build directory is gone, and
precisely the directories not under the build path survive. -/
theorem clean_spec (w : World) :
    (buildPath w ∉ w.dirs → clean w = (w, [], true)) ∧
    (buildPath w ∈ w.dirs →
      (clean w).2.2 = true ∧
      (clean w).1.cwd = w.cwd ∧
      (clean w).1.trace = w.trace ∧
      buildPath w ∉ (clean w).1.dirs ∧
      (∀ d, d ∈ (clean w).1.dirs ↔
        d ∈ w.dirs ∧ List.isPrefixOf (buildPath w) d = false)) := by
  by_cases hb : buildPath w ∈ w.dirs
  · refine ⟨fun h => absurd hb h, fun _ => ⟨?_, ?_, ?_, ?_, ?_⟩⟩ <;>
      simp [clean, hb, List.mem_filter, isPrefixOf_self]
  · exact ⟨fun _ => by simp [clean, hb], fun h => absurd h hb⟩

/-- C8 witness: `clean` is the identity with result `true` at `okWorld`,
and removes the build directory of `builtWorld`. -/
theorem clean_spec_witness :
    clean okWorld = (okWorld, [], true) ∧
    (clean builtWorld).2.2 = true ∧
    ["build"] ∉ (clean builtWorld).1.dirs := by
  have h1 := (clean_spec okWorld).1 (by decide)
  have h2 := (clean_spec builtWorld).2 (by decide)
  exact ⟨h1, h2.1, h2.2.2.2.1⟩

/-- C9: `build_debug` and `build_release` always leave the working directory
inside the build directory, as does `run_tests` when the build directory
exists, on every exit path; `setup_dev`, `format_code`, `lint_code`,
`check_code`, `update_hooks`, `help`, `clean`, and `run_tests` without a
build directory leave the working directory unchanged. -/
theorem cwd_frame_spec (w : World) :
    (build_debug w).1.cwd = w.cwd ++ ["build"] ∧
    (build_release w).1.cwd = w.cwd ++ ["build"] ∧
    (buildPath w ∈ w.dirs → (run_tests w).1.cwd = w.cwd ++ ["build"]) ∧
    (buildPath w ∉ w.dirs → (run_tests w).1.cwd = w.cwd) ∧
    (setup_dev w).1.cwd = w.cwd ∧
    (format_code w).1.cwd = w.cwd ∧
    (lint_code w).1.cwd = w.cwd ∧
    (check_code w).1.cwd = w.cwd ∧
    (update_hooks w).1.cwd = w.cwd ∧
    (help w).1.cwd = w.cwd ∧
    (clean w).1.cwd = w.cwd := by
  refine ⟨?_, ?_, ?_, ?_, ?_, ?_, ?_, ?_, ?_, rfl, ?_⟩
  · rw [build_debug_eq w]
    exact (buildWithType_spec "Debug" w).2.1
  · rw [build_release_eq w]
    exact (buildWithType_spec "Release" w).2.1
  · intro hb
    simp [run_tests, hb, run_command_cwd, chdirBuild]
  · intro hb
    simp [run_tests, hb]
  · by_cases h1 : (w.exec "pip install -r requirements.txt").exitCode = 0 <;>
      by_cases h2 : (w.exec "pre-commit install").exitCode = 0 <;>
        simp [setup_dev, run_command, h1, h2]
  · exact run_command_cwd _ _ w
  · exact run_command_cwd _ _ w
  · exact run_command_cwd _ _ w
  · exact run_command_cwd _ _ w
  · by_cases hb : buildPath w ∈ w.dirs <;> simp [clean, hb]

/-- C9 witness: at `okWorld`, the build actions end inside `build` while
`run_tests` (missing directory) and `clean` leave the root directory. -/
theorem cwd_frame_spec_witness :
    (build_debug okWorld).1.cwd = ["build"] ∧
    (run_tests okWorld).1.cwd = [] ∧
    (clean okWorld).1.cwd = [] := by
  have h := cwd_frame_spec okWorld
  exact ⟨h.1, h.2.2.2.1 (by decide), h.2.2.2.2.2.2.2.2.2.2⟩

/-- C10 witness: the format / check agreement at the all-succeeding world. -/
theorem format_check_extensionally_equal_witness :
    (format_code okWorld).1 = (check_code okWorld).1 ∧
    (format_code okWorld).2.2 = (check_code okWorld).2.2 ∧
    ((format_code okWorld).2.1).tail = ((check_code okWorld).2.1).tail :=
  ⟨(format_check_extensionally_equal okWorld).2.2.1,
   (format_check_extensionally_equal okWorld).2.2.2.1,
   (format_check_extensionally_equal okWorld).2.2.2.2.1⟩

end Tasks
